import Mathlib

set_option linter.unusedVariables false

/-!
Shallow embedding of the attestation verifier in `server/verify.go` of
go-tpm-tools: the data model (attestation bundle, verify options, quotes,
machine state, certificates, the GCE instance-info vendor extension) and the
operations (`validateOpts`, `validateAKPub`, `validateAKCert`,
`getInstanceInfo`, `supportedQuotes`, `VerifyAttestation`).

External collaborators that the verifier calls but that are out of scope for
this core (quote signature checking, the two event-log replays, TPM public
area decoding, X.509 certificate parsing and cryptographic chain building,
ASN.1 unmarshalling) are modelled as fields of a `Collab` record, so every
theorem quantifies over their behaviour.
-/

/-- Byte strings are modelled as lists of naturals. -/
abbrev Bytes := List Nat

/-- Public keys are opaque to this core (only compared by the collaborator
`pubKeysEqual`); an opaque identifier suffices. -/
abbrev PubKey := Nat

/-- ASN.1 object identifiers, as in Go's `asn1.ObjectIdentifier`. -/
abbrev OID := List Nat

/-- Decoded TPM public areas (`tpm2.Public`) are opaque to this core. -/
abbrev TPMTPublic := Nat

/-- TPM algorithm identifier `tpm2.AlgSHA1`. -/
def AlgSHA1 : Nat := 0x0004

/-- TPM algorithm identifier `tpm2.AlgSHA256`. -/
def AlgSHA256 : Nat := 0x000B

/-- TPM algorithm identifier `tpm2.AlgSHA384`. -/
def AlgSHA384 : Nat := 0x000C

/-- TPM algorithm identifier `tpm2.AlgSHA512`. -/
def AlgSHA512 : Nat := 0x000D

/-- Modelled from the spec: `internal.SignatureHashAlgs` lives in the
repository's internal package, which is not part of the provided sources; the
spec describes it as the fixed platform base preference list, ordered by
decreasing trust, with the legacy SHA-1 algorithm deliberately absent (it is
appended separately at lowest priority). -/
def SignatureHashAlgs : List Nat := [AlgSHA256, AlgSHA384, AlgSHA512]

/-- We conditionally support SHA-1 for PCR hashes, but at the lowest
priority (`pcrHashAlgs` in the source). -/
def pcrHashAlgs : List Nat := SignatureHashAlgs ++ [AlgSHA1]

/-- The subject-alternative-name extension OID (`oidExtensionSubjectAltName`). -/
def oidExtensionSubjectAltName : OID := [2, 5, 29, 17]

/-- The GCE instance identifier extension OID
(`cloudComputeInstanceIdentifierOID`). -/
def cloudComputeInstanceIdentifierOID : OID := [1, 3, 6, 1, 4, 1, 11129, 2, 1, 21]

/-- The PCR bank of a quote (`tpmpb.PCRs`): the hash algorithm identifier and
the register values, which this core passes to collaborators opaquely. -/
structure Pcrs where
  hash : Nat
  pcrs : List (Nat × Bytes)
deriving DecidableEq, Repr

/-- A candidate quote (`tpmpb.Quote`): the signed payload and signature are
opaque to this core (consumed by the quote-check collaborator); only the PCR
bank's hash algorithm is inspected here. -/
structure Quote where
  quote : Bytes
  rawSig : Bytes
  pcrs : Pcrs
deriving DecidableEq, Repr

/-- The instance identity record surfaced on success (`pb.GCEInstanceInfo`). -/
structure GCEInstanceInfoPB where
  zone : String
  projectId : String
  projectNumber : Nat
  instanceName : String
  instanceId : Nat
deriving DecidableEq, Repr

/-- The platform fragment of a machine state (`pb.PlatformState`); the
instance-info pointer may be nil. -/
structure PlatformState where
  instanceInfo : Option GCEInstanceInfoPB
deriving DecidableEq, Repr

/-- The verified output (`pb.MachineState`): the platform-identity fragment
plus the two log-derived fragments, which are opaque to this core (produced by
the log-replay collaborators).  Each field is `none` when unset, as in an
empty protobuf message. -/
structure MachineState where
  platform : Option PlatformState := none
  pcclientFrag : Option Nat := none
  celFrag : Option Nat := none
deriving DecidableEq, Repr

/-- Field-wise preference for the source field when set, as `proto.Merge`
copies fields that are populated in `src` over `dst`. -/
def mergeOpt {α : Type} (dst src : Option α) : Option α :=
  match src with
  | some s => some s
  | none => dst

/-- Field-wise merge of two machine states, as `proto.Merge(dst, src)`; by
the spec the two fragments never populate the same field, so overwrite and
recursive merge coincide. -/
def protoMerge (dst src : MachineState) : MachineState :=
  { platform := mergeOpt dst.platform src.platform
    pcclientFrag := mergeOpt dst.pcclientFrag src.pcclientFrag
    celFrag := mergeOpt dst.celFrag src.celFrag }

/-- The empty machine state `&pb.MachineState{}`. -/
def emptyMachineState : MachineState := {}

/-- A certificate extension (`pkix.Extension`). -/
structure Extension where
  id : OID
  critical : Bool := false
  value : Bytes
deriving DecidableEq, Repr

/-- A parsed certificate (`x509.Certificate`), restricted to the fields this
core reads: the public key, the unhandled-critical-extensions list and the
full extension list. -/
structure Certificate where
  publicKey : PubKey
  unhandledCriticalExtensions : List OID
  extensions : List Extension
deriving DecidableEq, Repr

/-- The nested security-properties record of the vendor extension
(`gceSecurityProperties`); both fields are explicit-tagged and optional in
the ASN.1 schema. -/
structure gceSecurityProperties where
  SecurityVersion : Int
  IsProduction : Bool
deriving DecidableEq, Repr

/-- The wire-level view of the vendor extension: the optional
security-properties substructure may be entirely absent from the encoding. -/
structure gceInstanceInfoRaw where
  Zone : String
  ProjectNumber : Int
  ProjectID : String
  InstanceID : Int
  InstanceName : String
  SecurityProperties : Option gceSecurityProperties
deriving DecidableEq, Repr

/-- The Go-struct view after unmarshalling (`gceInstanceInfo`): every field
present, absent optionals left at their zero value. -/
structure gceInstanceInfo where
  Zone : String
  ProjectNumber : Int
  ProjectID : String
  InstanceID : Int
  InstanceName : String
  SecurityProperties : gceSecurityProperties
deriving DecidableEq, Repr

/-- Modelled from the spec: Go's `asn1.Unmarshal` leaves an absent
explicit-tagged optional field at the Go zero value, so a missing
security-properties structure yields version 0 and a false production flag. -/
def fillDefaults (r : gceInstanceInfoRaw) : gceInstanceInfo :=
  { Zone := r.Zone
    ProjectNumber := r.ProjectNumber
    ProjectID := r.ProjectID
    InstanceID := r.InstanceID
    InstanceName := r.InstanceName
    SecurityProperties := r.SecurityProperties.getD ⟨0, false⟩ }

/-- Verification options (`VerifyOpts`). -/
structure VerifyOpts where
  Nonce : Bytes
  TrustedAKs : List PubKey
  AllowSHA1 : Bool
  TrustedRootCerts : List Certificate
  IntermediateCerts : List Certificate
deriving Repr

/-- The attestation bundle (`pb.Attestation`), restricted to the fields this
core reads: the AK public area and AK certificate encodings (an empty byte
string means absent), the candidate quotes, the two event logs and the
intermediate certificate encodings. -/
structure Attestation where
  akPub : Bytes
  quotes : List Quote
  eventLog : Bytes
  akCert : Bytes
  intermediateCerts : List Bytes
  canonicalEventLog : Bytes
deriving Repr

/-- The error taxonomy: one constructor per `fmt.Errorf` site of the source,
wrapping inner errors the way the source wraps them with `%w` or `%v`. -/
inductive VError where
  | noTrustMechanism
  | multipleTrustMechanisms
  | badOptions (e : VError)
  | decodeAKPubArea (e : String)
  | akPublicKey (e : String)
  | validateAKPubFailed (e : VError)
  | keyNotTrusted
  | parseAKCert (e : String)
  | attestationIntermediates (e : String)
  | validateAKCertFailed (e : VError)
  | certNotChained (e : String)
  | instanceInfoError (e : VError)
  | parseExtension (e : String)
  | negativeIntFields
  | quoteVerifyFailed (e : String)
  | pcclientLogFailed (e : String)
  | canonicalLogFailed (e : String)
  | sha1NotAllowed
  | noSupportedQuote
deriving DecidableEq, Repr

/-- The external collaborators of the verifier, out of scope for this core:
quote signature checking (`internal.VerifyQuote`), the two log replays
(`parsePCClientEventLog`, `parseCanonicalEventLog`), public key equality
(`internal.PubKeysEqual`), TPM public area decoding (`tpm2.DecodePublic` and
`Public.Key`), X.509 parsing (`x509.ParseCertificate`), cryptographic chain
building, and ASN.1 unmarshalling of the vendor extension payload. -/
structure Collab where
  verifyQuote : Quote → PubKey → Bytes → Option String
  parsePCClientEventLog : Bytes → Pcrs → Except String MachineState
  parseCanonicalEventLog : Bytes → Pcrs → Except String MachineState
  pubKeysEqual : PubKey → PubKey → Bool
  decodePublic : Bytes → Except String TPMTPublic
  publicKey : TPMTPublic → Except String PubKey
  parseCertificate : Bytes → Except String Certificate
  chainBuild : Certificate → List Certificate → List Certificate → List Nat → Option String
  asn1UnmarshalInstanceInfo : Bytes → Except String gceInstanceInfoRaw

/-- The outcome of a call to the verifier: a machine state with nil error, a
non-nil error, or a runtime panic. -/
inductive VResult where
  | ok (ms : MachineState)
  | err (e : VError)
  | panicked
deriving DecidableEq, Repr

/-- Check that we are passing in a valid VerifyOpts structure
(`validateOpts`). -/
def validateOpts (opts : VerifyOpts) : Option VError :=
  let checkPub := opts.TrustedAKs.length > 0
  let checkCert := opts.TrustedRootCerts.length > 0
  if !checkPub && !checkCert then
    some .noTrustMechanism
  else if checkPub && checkCert then
    some .multipleTrustMechanisms
  else
    none

/-- Scan the trusted-key allow-list for a structurally equal key
(`validateAKPub`). -/
def validateAKPub (C : Collab) (ak : PubKey) (opts : VerifyOpts) : Option VError :=
  if opts.TrustedAKs.any (fun trusted => C.pubKeysEqual ak trusted) then
    none
  else
    some .keyNotTrusted

/-- Decode the GCE instance-info vendor extension (`getInstanceInfo`): find
the first extension carrying the fixed OID, return nil when absent or empty,
unmarshal, reject negative integer fields, gate on the production flag. -/
def getInstanceInfo (C : Collab) (extensions : List Extension) :
    Except VError (Option GCEInstanceInfoPB) :=
  let rawInfo : Bytes :=
    match extensions.find? (fun ext => ext.id == cloudComputeInstanceIdentifierOID) with
    | some ext => ext.value
    | none => []
  if rawInfo.length == 0 then
    .ok none
  else
    match C.asn1UnmarshalInstanceInfo rawInfo with
    | .error e => .error (.parseExtension e)
    | .ok raw =>
      let info := fillDefaults raw
      if info.ProjectNumber < 0 || info.InstanceID < 0 ||
          info.SecurityProperties.SecurityVersion < 0 then
        .error .negativeIntFields
      else if !info.SecurityProperties.IsProduction then
        .ok none
      else
        .ok (some
          { zone := info.Zone
            projectId := info.ProjectID
            projectNumber := info.ProjectNumber.toNat
            instanceName := info.InstanceName
            instanceId := info.InstanceID.toNat })

/-- Build a certificate pool (`makePool`); pools are modelled as the lists
they are built from. -/
def makePool (certs : List Certificate) : List Certificate := certs

/-- The `x509.ExtKeyUsageAny` key usage. -/
def extKeyUsageAny : Nat := 0

/-- Modelled from the spec: Go's `x509.Certificate.Verify` (a platform
primitive outside this repository) fails whenever the certificate still
carries unhandled critical extensions, before any chain building; the
cryptographic chain building itself is the opaque collaborator `chainBuild`. -/
def x509Verify (C : Collab) (cert : Certificate) (roots intermediates : List Certificate)
    (keyUsages : List Nat) : Option String :=
  if cert.unhandledCriticalExtensions.isEmpty then
    C.chainBuild cert roots intermediates keyUsages
  else
    some "x509: unhandled critical extension"

/-- Validate an AK certificate (`validateAKCert`).  With no trusted roots the
certificate's public key is checked against the trusted-key set and a nil
machine-state pointer is returned alongside the (possibly nil) error; with
roots, the SAN OID is filtered out of the unhandled-critical-extensions list,
the chain is verified with any extended key usage allowed, and the instance
info is wrapped into a platform fragment.  The `Option` in the success value
models the nullability of the returned `*pb.MachineState`. -/
def validateAKCert (C : Collab) (akCert : Certificate) (opts : VerifyOpts) :
    Except VError (Option MachineState) :=
  if opts.TrustedRootCerts.length == 0 then
    match validateAKPub C akCert.publicKey opts with
    | some e => .error e
    | none => .ok none
  else
    let exts := akCert.unhandledCriticalExtensions.filter
      (fun ext => !(ext == oidExtensionSubjectAltName))
    let akCert := { akCert with unhandledCriticalExtensions := exts }
    match x509Verify C akCert (makePool opts.TrustedRootCerts)
        (makePool opts.IntermediateCerts) [extKeyUsageAny] with
    | some e => .error (.certNotChained e)
    | none =>
      match getInstanceInfo C akCert.extensions with
      | .error e => .error (.instanceInfoError e)
      | .ok instanceInfo =>
        .ok (some { platform := some ⟨instanceInfo⟩ })

/-- Retrieve the supported quotes in order of hash preference
(`supportedQuotes`): for each algorithm of the fixed preference list, the
first input quote whose PCR bank uses it, if any. -/
def supportedQuotes (quotes : List Quote) : List Quote :=
  pcrHashAlgs.filterMap
    (fun alg => quotes.find? (fun quote => quote.pcrs.hash == alg))

/-- Modelled from the spec: `parseCerts` lives outside the provided source
file; per the spec it decodes each intermediate certificate blob carried in
the bundle, failing on the first undecodable one. -/
def parseCerts (C : Collab) : List Bytes → Except String (List Certificate)
  | [] => .ok []
  | b :: bs =>
    match C.parseCertificate b with
    | .error e => .error e
    | .ok c =>
      match parseCerts C bs with
      | .error e => .error e
      | .ok cs => .ok (c :: cs)

/-- The error a candidate quote records when it does not fully succeed: the
quote check, then the primary-log replay, then the canonical-log replay, then
the SHA-1 policy gate, in the order of the loop body of `VerifyAttestation`;
`none` means the candidate fully succeeds. -/
def candidateError (C : Collab) (att : Attestation) (opts : VerifyOpts)
    (akPubKey : PubKey) (quote : Quote) : Option VError :=
  match C.verifyQuote quote akPubKey opts.Nonce with
  | some e => some (.quoteVerifyFailed e)
  | none =>
    match C.parsePCClientEventLog att.eventLog quote.pcrs with
    | .error e => some (.pcclientLogFailed e)
    | .ok _ =>
      match C.parseCanonicalEventLog att.canonicalEventLog quote.pcrs with
      | .error e => some (.canonicalLogFailed e)
      | .ok _ =>
        if !opts.AllowSHA1 && quote.pcrs.hash == AlgSHA1 then
          some .sha1NotAllowed
        else
          none

/-- The candidate loop of `VerifyAttestation` (lines 117-157 of the source):
iterate the ordered candidates, recording the last error; on the first fully
successful candidate, merge the canonical-log and primary-log fragments into
the seed machine state and return.  `machineState` is the seed pointer, which
the source can leave nil (the raw-key branch of `validateAKCert`); merging
into a nil message panics, as `proto.Merge` does. -/
def attestLoop (C : Collab) (att : Attestation) (opts : VerifyOpts)
    (akPubKey : PubKey) (machineState : Option MachineState) :
    List Quote → Option VError → VResult
  | [], lastErr =>
    match lastErr with
    | some e => .err e
    | none => .err .noSupportedQuote
  | quote :: rest, lastErr =>
    match C.verifyQuote quote akPubKey opts.Nonce with
    | some e => attestLoop C att opts akPubKey machineState rest (some (.quoteVerifyFailed e))
    | none =>
      match C.parsePCClientEventLog att.eventLog quote.pcrs with
      | .error e => attestLoop C att opts akPubKey machineState rest (some (.pcclientLogFailed e))
      | .ok state =>
        match C.parseCanonicalEventLog att.canonicalEventLog quote.pcrs with
        | .error e => attestLoop C att opts akPubKey machineState rest (some (.canonicalLogFailed e))
        | .ok celState =>
          if !opts.AllowSHA1 && quote.pcrs.hash == AlgSHA1 then
            attestLoop C att opts akPubKey machineState rest (some .sha1NotAllowed)
          else
            match machineState with
            | none => .panicked
            | some ms => .ok (protoMerge (protoMerge ms celState) state)

/-- The top-level verifier (`VerifyAttestation`): validate options, establish
the identity (raw public area when no certificate is present, certificate
validation otherwise, folding the bundle's intermediates into the options),
then run the candidate loop with the identity-derived seed machine state. -/
def VerifyAttestation (C : Collab) (attestation : Attestation) (opts : VerifyOpts) : VResult :=
  match validateOpts opts with
  | some e => .err (.badOptions e)
  | none =>
    if attestation.akCert.length == 0 then
      match C.decodePublic attestation.akPub with
      | .error e => .err (.decodeAKPubArea e)
      | .ok akPubArea =>
        match C.publicKey akPubArea with
        | .error e => .err (.akPublicKey e)
        | .ok akPubKey =>
          match validateAKPub C akPubKey opts with
          | some e => .err (.validateAKPubFailed e)
          | none =>
            attestLoop C attestation opts akPubKey (some emptyMachineState)
              (supportedQuotes attestation.quotes) none
    else
      match C.parseCertificate attestation.akCert with
      | .error e => .err (.parseAKCert e)
      | .ok akCert =>
        match parseCerts C attestation.intermediateCerts with
        | .error e => .err (.attestationIntermediates e)
        | .ok certs =>
          let opts := { opts with IntermediateCerts := opts.IntermediateCerts ++ certs }
          match validateAKCert C akCert opts with
          | .error e => .err (.validateAKCertFailed e)
          | .ok machineState =>
            attestLoop C attestation opts akCert.publicKey machineState
              (supportedQuotes attestation.quotes) none

/-! Concrete fixtures used by witnesses and counterexamples. -/

/-- A certificate with public key 7 and no extensions. -/
def certEx : Certificate :=
  { publicKey := 7, unhandledCriticalExtensions := [], extensions := [] }

/-- A raw vendor extension with a negative project number. -/
def rawNeg : gceInstanceInfoRaw :=
  { Zone := "us-east1-b", ProjectNumber := -1, ProjectID := "p", InstanceID := 4
    InstanceName := "vm", SecurityProperties := some ⟨0, true⟩ }

/-- A raw vendor extension whose optional security-properties structure is
entirely absent. -/
def rawNoSec : gceInstanceInfoRaw :=
  { Zone := "us-east1-b", ProjectNumber := 5, ProjectID := "p", InstanceID := 6
    InstanceName := "vm", SecurityProperties := none }

/-- A raw vendor extension for a production instance. -/
def rawProd : gceInstanceInfoRaw :=
  { Zone := "us-east1-b", ProjectNumber := 5, ProjectID := "p", InstanceID := 6
    InstanceName := "vm", SecurityProperties := some ⟨1, true⟩ }

/-- A raw vendor extension for a non-production instance. -/
def rawNonProd : gceInstanceInfoRaw :=
  { Zone := "us-east1-b", ProjectNumber := 5, ProjectID := "p", InstanceID := 6
    InstanceName := "vm", SecurityProperties := some ⟨1, false⟩ }

/-- An instantiation of the external collaborators, dispatching on
distinguished input bytes so that both success and failure behaviours are
reachable in witnesses. -/
def collabEx : Collab :=
  { verifyQuote := fun q _ _ => if q.quote == [9] then some "bad quote signature" else none
    parsePCClientEventLog := fun l _ =>
      if l == [9] then .error "pc replay failed" else .ok { pcclientFrag := some 1 }
    parseCanonicalEventLog := fun l _ =>
      if l == [9] then .error "cel replay failed" else .ok { celFrag := some 2 }
    pubKeysEqual := fun a b => a == b
    decodePublic := fun b => if b == [9] then .error "bad public area" else .ok 0
    publicKey := fun _ => .ok 7
    parseCertificate := fun b => if b == [9] then .error "bad certificate" else .ok certEx
    chainBuild := fun _ _ _ _ => none
    asn1UnmarshalInstanceInfo := fun b =>
      if b == [1] then .ok rawNeg
      else if b == [2] then .ok rawNoSec
      else if b == [3] then .ok rawProd
      else if b == [4] then .ok rawNonProd
      else .error "asn1 parse error" }

/-- A quote over the SHA-256 PCR bank. -/
def quoteSHA256ex : Quote := { quote := [], rawSig := [], pcrs := { hash := AlgSHA256, pcrs := [] } }

/-- A quote over the SHA-384 PCR bank. -/
def quoteSHA384ex : Quote := { quote := [], rawSig := [], pcrs := { hash := AlgSHA384, pcrs := [] } }

/-- A quote over the SHA-256 PCR bank whose signature check fails under
`collabEx`. -/
def quoteSHA256bad : Quote := { quote := [9], rawSig := [], pcrs := { hash := AlgSHA256, pcrs := [] } }

/-- A quote over the legacy SHA-1 PCR bank. -/
def quoteSHA1ex : Quote := { quote := [], rawSig := [], pcrs := { hash := AlgSHA1, pcrs := [] } }

/-- Options with a single trusted AK and no roots. -/
def optsAKex : VerifyOpts :=
  { Nonce := [], TrustedAKs := [7], AllowSHA1 := false
    TrustedRootCerts := [], IntermediateCerts := [] }

/-- Options with no trust mechanism at all. -/
def optsEmptyEx : VerifyOpts :=
  { Nonce := [], TrustedAKs := [], AllowSHA1 := false
    TrustedRootCerts := [], IntermediateCerts := [] }

/-- A raw-key attestation bundle with one SHA-256 quote. -/
def attEx : Attestation :=
  { akPub := [0], quotes := [quoteSHA256ex], eventLog := [], akCert := []
    intermediateCerts := [], canonicalEventLog := [] }

/-- A certificate whose only unhandled critical extension is the SAN OID. -/
def certSANonly : Certificate :=
  { publicKey := 7, unhandledCriticalExtensions := [oidExtensionSubjectAltName]
    extensions := [] }

/-- A certificate carrying the SAN OID plus an unrelated unhandled critical
extension. -/
def certOtherCrit : Certificate :=
  { publicKey := 7
    unhandledCriticalExtensions := [oidExtensionSubjectAltName, [1, 2, 3]]
    extensions := [] }

/-- Options with one trusted root and no trusted AKs. -/
def optsRootsEx : VerifyOpts :=
  { Nonce := [], TrustedAKs := [], AllowSHA1 := false
    TrustedRootCerts := [certEx], IntermediateCerts := [] }

/-- Options with a single trusted AK and the legacy SHA-1 algorithm allowed. -/
def optsSHA1on : VerifyOpts :=
  { Nonce := [], TrustedAKs := [7], AllowSHA1 := true
    TrustedRootCerts := [], IntermediateCerts := [] }

/-- A certificate-carrying attestation bundle with one SHA-256 quote. -/
def attCertEx : Attestation :=
  { akPub := [], quotes := [quoteSHA256ex], eventLog := [], akCert := [5]
    intermediateCerts := [], canonicalEventLog := [] }

/-- A raw-key bundle whose first-preference quote fails its signature check
and whose second-preference quote fully verifies. -/
def attFallback : Attestation :=
  { akPub := [0], quotes := [quoteSHA256bad, quoteSHA384ex], eventLog := []
    akCert := [], intermediateCerts := [], canonicalEventLog := [] }

/-- A raw-key bundle carrying only a legacy SHA-1 quote. -/
def attSHA1 : Attestation :=
  { akPub := [0], quotes := [quoteSHA1ex], eventLog := [], akCert := []
    intermediateCerts := [], canonicalEventLog := [] }

/-- A raw-key bundle with no quotes at all. -/
def attNoQuotes : Attestation :=
  { akPub := [0], quotes := [], eventLog := [], akCert := []
    intermediateCerts := [], canonicalEventLog := [] }

/-- A raw-key bundle whose AK public area fails to decode under `collabEx`. -/
def attBadPub : Attestation :=
  { akPub := [9], quotes := [quoteSHA256ex], eventLog := [], akCert := []
    intermediateCerts := [], canonicalEventLog := [] }

/-- A raw-key bundle whose only quote fails its signature check under
`collabEx`. -/
def attBadQuote : Attestation :=
  { akPub := [0], quotes := [quoteSHA256bad], eventLog := [], akCert := []
    intermediateCerts := [], canonicalEventLog := [] }

/-! Claim theorems. -/

/-- C2: `VerifyAttestation` fails with a configuration error before any
identity or quote processing exactly when the exactly-one-of invariant on the
trusted-key and trusted-root sets is violated: options validation passes iff
exactly one of the two sets is non-empty, and in the both-empty and
both-non-empty cases the call fails with the corresponding configuration
error for every collaborator instantiation and every attestation bundle. -/
theorem validateOpts_exactly_one (opts : VerifyOpts) :
    (validateOpts opts = none ↔
      ((opts.TrustedAKs ≠ [] ∧ opts.TrustedRootCerts = []) ∨
       (opts.TrustedAKs = [] ∧ opts.TrustedRootCerts ≠ [])))
    ∧ (opts.TrustedAKs = [] → opts.TrustedRootCerts = [] →
        ∀ (C : Collab) (att : Attestation),
          VerifyAttestation C att opts = .err (.badOptions .noTrustMechanism))
    ∧ (opts.TrustedAKs ≠ [] → opts.TrustedRootCerts ≠ [] →
        ∀ (C : Collab) (att : Attestation),
          VerifyAttestation C att opts = .err (.badOptions .multipleTrustMechanisms)) := by
  obtain ⟨N, AKs, A1, R, I⟩ := opts
  cases AKs <;> cases R <;>
    simp [validateOpts, VerifyAttestation]

/-- Witness for C2 at a concrete both-empty options value. -/
theorem validateOpts_exactly_one_witness :
    VerifyAttestation collabEx attEx optsEmptyEx = .err (.badOptions .noTrustMechanism) :=
  (validateOpts_exactly_one optsEmptyEx).2.1 rfl rfl collabEx attEx

/-- Helper: the decoder returns nil with no error when no extension carries
the instance-identifier OID. -/
lemma getInstanceInfo_of_no_oid (C : Collab) (exts : List Extension)
    (habsent : ∀ ext ∈ exts, ext.id ≠ cloudComputeInstanceIdentifierOID) :
    getInstanceInfo C exts = .ok none := by
  have hfind : exts.find? (fun e => e.id == cloudComputeInstanceIdentifierOID) = none := by
    rw [List.find?_eq_none]
    intro ext hmem
    simpa using habsent ext hmem
  simp [getInstanceInfo, hfind]

/-- Helper: a negative project number, instance id or security version in the
unmarshalled vendor extension is rejected. -/
lemma getInstanceInfo_of_negative (C : Collab) (exts : List Extension)
    (ext : Extension) (raw : gceInstanceInfoRaw)
    (hfind : exts.find? (fun e => e.id == cloudComputeInstanceIdentifierOID) = some ext)
    (hne : ext.value ≠ [])
    (hparse : C.asn1UnmarshalInstanceInfo ext.value = .ok raw)
    (hneg : (fillDefaults raw).ProjectNumber < 0 ∨ (fillDefaults raw).InstanceID < 0 ∨
      (fillDefaults raw).SecurityProperties.SecurityVersion < 0) :
    getInstanceInfo C exts = .error .negativeIntFields := by
  have hlen : (ext.value.length == 0) = false := by
    simpa [List.length_eq_zero] using hne
  simp only [getInstanceInfo, hfind, hlen, Bool.false_eq_true, if_false, hparse]
  have hcond : (decide ((fillDefaults raw).ProjectNumber < 0) ||
      decide ((fillDefaults raw).InstanceID < 0) ||
      decide ((fillDefaults raw).SecurityProperties.SecurityVersion < 0)) = true := by
    rcases hneg with h | h | h <;> simp [h]
  simp [hcond]

/-- Helper: a well-formed vendor extension whose production flag is false
decodes to nil with no error. -/
lemma getInstanceInfo_of_nonproduction (C : Collab) (exts : List Extension)
    (ext : Extension) (raw : gceInstanceInfoRaw)
    (hfind : exts.find? (fun e => e.id == cloudComputeInstanceIdentifierOID) = some ext)
    (hne : ext.value ≠ [])
    (hparse : C.asn1UnmarshalInstanceInfo ext.value = .ok raw)
    (hpn : 0 ≤ (fillDefaults raw).ProjectNumber)
    (hiid : 0 ≤ (fillDefaults raw).InstanceID)
    (hsv : 0 ≤ (fillDefaults raw).SecurityProperties.SecurityVersion)
    (hprod : (fillDefaults raw).SecurityProperties.IsProduction = false) :
    getInstanceInfo C exts = .ok none := by
  have hlen : (ext.value.length == 0) = false := by
    simpa [List.length_eq_zero] using hne
  simp only [getInstanceInfo, hfind, hlen, Bool.false_eq_true, if_false, hparse]
  have hcond : (decide ((fillDefaults raw).ProjectNumber < 0) ||
      decide ((fillDefaults raw).InstanceID < 0) ||
      decide ((fillDefaults raw).SecurityProperties.SecurityVersion < 0)) = false := by
    simp [not_lt.mpr hpn, not_lt.mpr hiid, not_lt.mpr hsv]
  simp [hcond, hprod]

/-- C7: the instance-identity decoder returns nil with no error when no
extension carries the fixed OID; returns an error when the decoded project
number, instance id, or security version is negative; and returns nil with no
error when the decoded security-properties production flag is false even
though the bytes are well-formed. -/
theorem getInstanceInfo_policy (C : Collab) :
    (∀ exts : List Extension,
      (∀ ext ∈ exts, ext.id ≠ cloudComputeInstanceIdentifierOID) →
      getInstanceInfo C exts = .ok none)
    ∧ (∀ (exts : List Extension) (ext : Extension) (raw : gceInstanceInfoRaw),
        exts.find? (fun e => e.id == cloudComputeInstanceIdentifierOID) = some ext →
        ext.value ≠ [] →
        C.asn1UnmarshalInstanceInfo ext.value = .ok raw →
        ((fillDefaults raw).ProjectNumber < 0 ∨ (fillDefaults raw).InstanceID < 0 ∨
          (fillDefaults raw).SecurityProperties.SecurityVersion < 0) →
        getInstanceInfo C exts = .error .negativeIntFields)
    ∧ (∀ (exts : List Extension) (ext : Extension) (raw : gceInstanceInfoRaw),
        exts.find? (fun e => e.id == cloudComputeInstanceIdentifierOID) = some ext →
        ext.value ≠ [] →
        C.asn1UnmarshalInstanceInfo ext.value = .ok raw →
        0 ≤ (fillDefaults raw).ProjectNumber →
        0 ≤ (fillDefaults raw).InstanceID →
        0 ≤ (fillDefaults raw).SecurityProperties.SecurityVersion →
        (fillDefaults raw).SecurityProperties.IsProduction = false →
        getInstanceInfo C exts = .ok none) :=
  ⟨getInstanceInfo_of_no_oid C,
   getInstanceInfo_of_negative C,
   getInstanceInfo_of_nonproduction C⟩

/-- Witness for C7: a concrete extension decoding to a negative project
number is rejected. -/
theorem getInstanceInfo_policy_witness :
    getInstanceInfo collabEx [⟨cloudComputeInstanceIdentifierOID, false, [1]⟩]
      = .error .negativeIntFields :=
  (getInstanceInfo_policy collabEx).2.1
    [⟨cloudComputeInstanceIdentifierOID, false, [1]⟩]
    ⟨cloudComputeInstanceIdentifierOID, false, [1]⟩ rawNeg
    (by simp) (by simp) (by rfl) (by left; decide)

/-- C10: when the optional security-properties structure is entirely absent
from a well-formed vendor extension, the unmarshalled Go struct defaults the
production flag to false, so the decoder surfaces no instance identity and no
error. -/
theorem getInstanceInfo_absent_secprops (C : Collab) (exts : List Extension)
    (ext : Extension) (raw : gceInstanceInfoRaw)
    (hfind : exts.find? (fun e => e.id == cloudComputeInstanceIdentifierOID) = some ext)
    (hne : ext.value ≠ [])
    (hparse : C.asn1UnmarshalInstanceInfo ext.value = .ok raw)
    (habsent : raw.SecurityProperties = none)
    (hpn : 0 ≤ raw.ProjectNumber) (hiid : 0 ≤ raw.InstanceID) :
    (fillDefaults raw).SecurityProperties.IsProduction = false ∧
    getInstanceInfo C exts = .ok none := by
  have hdef : (fillDefaults raw).SecurityProperties = ⟨0, false⟩ := by
    simp [fillDefaults, habsent]
  refine ⟨by rw [hdef], ?_⟩
  exact getInstanceInfo_of_nonproduction C exts ext raw hfind hne hparse
    (by simpa [fillDefaults] using hpn) (by simpa [fillDefaults] using hiid)
    (by rw [hdef]) (by rw [hdef])

/-- Witness for C10 at a concrete extension whose security-properties
structure is absent. -/
theorem getInstanceInfo_absent_secprops_witness :
    (fillDefaults rawNoSec).SecurityProperties.IsProduction = false ∧
    getInstanceInfo collabEx [⟨cloudComputeInstanceIdentifierOID, false, [2]⟩] = .ok none :=
  getInstanceInfo_absent_secprops collabEx
    [⟨cloudComputeInstanceIdentifierOID, false, [2]⟩]
    ⟨cloudComputeInstanceIdentifierOID, false, [2]⟩ rawNoSec
    (by simp) (by simp) (by rfl) (by rfl) (by decide) (by decide)

/-- C8: before chain verification exactly the SAN OID is removed from the
unhandled-critical-extensions list and every other entry is preserved; a
certificate whose only unhandled critical extension is the SAN OID can still
pass chain verification, while a certificate carrying any other unhandled
critical extension still fails chain verification. -/
theorem validateAKCert_san_quirk (C : Collab) (akCert : Certificate) (opts : VerifyOpts)
    (hroots : opts.TrustedRootCerts ≠ []) :
    (∀ e : OID,
      e ∈ akCert.unhandledCriticalExtensions.filter (fun x => !(x == oidExtensionSubjectAltName))
        ↔ (e ∈ akCert.unhandledCriticalExtensions ∧ e ≠ oidExtensionSubjectAltName))
    ∧ (akCert.unhandledCriticalExtensions = [oidExtensionSubjectAltName] →
        ∀ info : Option GCEInstanceInfoPB,
          C.chainBuild { akCert with unhandledCriticalExtensions := [] }
            (makePool opts.TrustedRootCerts) (makePool opts.IntermediateCerts)
            [extKeyUsageAny] = none →
          getInstanceInfo C akCert.extensions = .ok info →
          validateAKCert C akCert opts = .ok (some { platform := some ⟨info⟩ }))
    ∧ (∀ e ∈ akCert.unhandledCriticalExtensions, e ≠ oidExtensionSubjectAltName →
        validateAKCert C akCert opts =
          .error (.certNotChained "x509: unhandled critical extension")) := by
  have hlen : (opts.TrustedRootCerts.length == 0) = false := by
    simpa [List.length_eq_zero] using hroots
  refine ⟨?_, ?_, ?_⟩
  · intro e
    simp [List.mem_filter]
  · intro hsan info hchain hinfo
    simp only [validateAKCert, hlen, Bool.false_eq_true, if_false, hsan]
    have hfilter : List.filter (fun x => !(x == oidExtensionSubjectAltName))
        [oidExtensionSubjectAltName] = [] := by simp
    rw [hfilter]
    simp only [x509Verify, List.isEmpty_nil, if_true, hchain, hinfo]
  · intro e hmem hne
    simp only [validateAKCert, hlen, Bool.false_eq_true, if_false]
    have hfmem : e ∈ akCert.unhandledCriticalExtensions.filter
        (fun x => !(x == oidExtensionSubjectAltName)) := by
      simp [List.mem_filter, hmem, hne]
    have hnonempty : (akCert.unhandledCriticalExtensions.filter
        (fun x => !(x == oidExtensionSubjectAltName))).isEmpty = false := by
      cases hfl : akCert.unhandledCriticalExtensions.filter
          (fun x => !(x == oidExtensionSubjectAltName)) with
      | nil => rw [hfl] at hfmem; cases hfmem
      | cons a l => simp [hfl]
    simp only [x509Verify, hnonempty, Bool.false_eq_true, if_false]

/-- Witness for C8: a concrete certificate whose only unhandled critical
extension is the SAN OID passes validation under a trusted root. -/
theorem validateAKCert_san_quirk_witness :
    validateAKCert collabEx certSANonly optsRootsEx = .ok (some { platform := some ⟨none⟩ }) :=
  (validateAKCert_san_quirk collabEx certSANonly optsRootsEx
    (by simp [optsRootsEx])).2.1 rfl none rfl rfl

/-- Helper: a candidate that records an error makes the loop continue with
that error as the last recorded one. -/
lemma attestLoop_cons_fail (C : Collab) (att : Attestation) (opts : VerifyOpts)
    (ak : PubKey) (ms : Option MachineState) (q : Quote) (rest : List Quote)
    (le : Option VError) (e : VError)
    (h : candidateError C att opts ak q = some e) :
    attestLoop C att opts ak ms (q :: rest) le = attestLoop C att opts ak ms rest (some e) := by
  simp only [attestLoop]
  cases hq : C.verifyQuote q ak opts.Nonce with
  | some e0 =>
    simp only [candidateError, hq, Option.some.injEq] at h
    simp only [hq]
    rw [h]
  | none =>
    simp only [candidateError, hq] at h
    simp only [hq]
    cases hpc : C.parsePCClientEventLog att.eventLog q.pcrs with
    | error e0 =>
      simp only [hpc, Option.some.injEq] at h
      simp only [hpc]
      rw [h]
    | ok state =>
      simp only [hpc] at h
      simp only [hpc]
      cases hcel : C.parseCanonicalEventLog att.canonicalEventLog q.pcrs with
      | error e0 =>
        simp only [hcel, Option.some.injEq] at h
        simp only [hcel]
        rw [h]
      | ok celState =>
        simp only [hcel] at h
        simp only [hcel]
        cases hpol : (!opts.AllowSHA1 && (q.pcrs.hash == AlgSHA1)) with
        | false => simp [hpol] at h
        | true =>
          simp only [hpol, if_true, Option.some.injEq] at h
          simp [hpol, h]

/-- Helper: a fully successful candidate with a non-nil seed machine state
returns the merged result. -/
lemma attestLoop_cons_success (C : Collab) (att : Attestation) (opts : VerifyOpts)
    (ak : PubKey) (ms0 : MachineState) (q : Quote) (rest : List Quote)
    (le : Option VError) (state celState : MachineState)
    (hq : C.verifyQuote q ak opts.Nonce = none)
    (hpc : C.parsePCClientEventLog att.eventLog q.pcrs = .ok state)
    (hcel : C.parseCanonicalEventLog att.canonicalEventLog q.pcrs = .ok celState)
    (hpol : (!opts.AllowSHA1 && (q.pcrs.hash == AlgSHA1)) = false) :
    attestLoop C att opts ak (some ms0) (q :: rest) le =
      .ok (protoMerge (protoMerge ms0 celState) state) := by
  simp [attestLoop, hq, hpc, hcel, hpol]

/-- Helper: a fully successful candidate with a nil seed machine-state
pointer reaches the merge with a nil destination, which panics. -/
lemma attestLoop_cons_panic (C : Collab) (att : Attestation) (opts : VerifyOpts)
    (ak : PubKey) (q : Quote) (rest : List Quote)
    (le : Option VError) (state celState : MachineState)
    (hq : C.verifyQuote q ak opts.Nonce = none)
    (hpc : C.parsePCClientEventLog att.eventLog q.pcrs = .ok state)
    (hcel : C.parseCanonicalEventLog att.canonicalEventLog q.pcrs = .ok celState)
    (hpol : (!opts.AllowSHA1 && (q.pcrs.hash == AlgSHA1)) = false) :
    attestLoop C att opts ak none (q :: rest) le = .panicked := by
  simp [attestLoop, hq, hpc, hcel, hpol]

/-- Helper: when every candidate fails, the loop returns the error of the
last candidate. -/
lemma attestLoop_all_fail (C : Collab) (att : Attestation) (opts : VerifyOpts)
    (ak : PubKey) (ms : Option MachineState) :
    ∀ (cands : List Quote) (q : Quote) (e : VError) (le : Option VError),
      (∀ p ∈ cands, (candidateError C att opts ak p).isSome) →
      candidateError C att opts ak q = some e →
      attestLoop C att opts ak ms (cands ++ [q]) le = .err e := by
  intro cands
  induction cands with
  | nil =>
    intro q e le hall hq
    rw [List.nil_append, attestLoop_cons_fail C att opts ak ms q [] le e hq]
    rfl
  | cons p t ih =>
    intro q e le hall hq
    obtain ⟨ep, hep⟩ := Option.isSome_iff_exists.mp (hall p (List.mem_cons_self p t))
    rw [List.cons_append, attestLoop_cons_fail C att opts ak ms p (t ++ [q]) le ep hep]
    exact ih q e (some ep) (fun r hr => hall r (List.mem_cons_of_mem p hr)) hq

/-- Helper: the loop skips any prefix of failing candidates and succeeds at
the first fully successful one, whatever follows it. -/
lemma attestLoop_skip_success (C : Collab) (att : Attestation) (opts : VerifyOpts)
    (ak : PubKey) (ms0 : MachineState) (c : Quote) (cands2 : List Quote)
    (state celState : MachineState)
    (hq : C.verifyQuote c ak opts.Nonce = none)
    (hpc : C.parsePCClientEventLog att.eventLog c.pcrs = .ok state)
    (hcel : C.parseCanonicalEventLog att.canonicalEventLog c.pcrs = .ok celState)
    (hpol : (!opts.AllowSHA1 && (c.pcrs.hash == AlgSHA1)) = false) :
    ∀ (cands1 : List Quote) (le : Option VError),
      (∀ p ∈ cands1, (candidateError C att opts ak p).isSome) →
      attestLoop C att opts ak (some ms0) (cands1 ++ c :: cands2) le =
        .ok (protoMerge (protoMerge ms0 celState) state) := by
  intro cands1
  induction cands1 with
  | nil =>
    intro le hall
    rw [List.nil_append]
    exact attestLoop_cons_success C att opts ak ms0 c cands2 le state celState hq hpc hcel hpol
  | cons p t ih =>
    intro le hall
    obtain ⟨ep, hep⟩ := Option.isSome_iff_exists.mp (hall p (List.mem_cons_self p t))
    rw [List.cons_append, attestLoop_cons_fail C att opts ak (some ms0) p (t ++ c :: cands2) le ep hep]
    exact ih (some ep) (fun r hr => hall r (List.mem_cons_of_mem p hr))

/-- Helper: on the raw-key identity path, the verifier reduces to the
candidate loop seeded with the empty machine state. -/
lemma verify_rawpath_loop (C : Collab) (att : Attestation) (opts : VerifyOpts)
    (pa : TPMTPublic) (ak : PubKey)
    (hopts : validateOpts opts = none) (hcert : att.akCert = [])
    (hdec : C.decodePublic att.akPub = .ok pa) (hkey : C.publicKey pa = .ok ak)
    (hak : validateAKPub C ak opts = none) :
    VerifyAttestation C att opts =
      attestLoop C att opts ak (some emptyMachineState) (supportedQuotes att.quotes) none := by
  simp [VerifyAttestation, hopts, hcert, hdec, hkey, hak]

/-- Helper: on the certificate identity path, the verifier reduces to the
candidate loop seeded with the pointer returned by certificate validation,
under the options extended with the bundle's intermediates. -/
lemma verify_certpath_loop (C : Collab) (att : Attestation) (opts : VerifyOpts)
    (akCert : Certificate) (certs : List Certificate) (msPtr : Option MachineState)
    (hopts : validateOpts opts = none) (hcert : att.akCert ≠ [])
    (hparse : C.parseCertificate att.akCert = .ok akCert)
    (hints : parseCerts C att.intermediateCerts = .ok certs)
    (hval : validateAKCert C akCert
      { opts with IntermediateCerts := opts.IntermediateCerts ++ certs } = .ok msPtr) :
    VerifyAttestation C att opts =
      attestLoop C att { opts with IntermediateCerts := opts.IntermediateCerts ++ certs }
        akCert.publicKey msPtr (supportedQuotes att.quotes) none := by
  have hlen : (att.akCert.length == 0) = false := by
    simpa [List.length_eq_zero] using hcert
  simp [VerifyAttestation, hopts, hlen, hparse, hints, hval]

/-- C3: `VerifyAttestation` returns success at the first candidate for which
the quote check, both log replays and the weak-algorithm policy all pass,
with the result equal to the identity-derived seed machine state (the empty
state on the raw-key path, the certificate-derived state on the certificate
path) merged field-wise with the canonical-log fragment and then the
primary-log fragment of that candidate; the candidates after the first fully
successful one (`cands2`, universally quantified and absent from the
conclusion) are never examined. -/
theorem verifyAttestation_first_success (C : Collab) (att : Attestation) (opts : VerifyOpts)
    (hopts : validateOpts opts = none) :
    (∀ (pa : TPMTPublic) (ak : PubKey),
      att.akCert = [] →
      C.decodePublic att.akPub = .ok pa → C.publicKey pa = .ok ak →
      validateAKPub C ak opts = none →
      ∀ (cands1 cands2 : List Quote) (c : Quote) (state celState : MachineState),
        supportedQuotes att.quotes = cands1 ++ c :: cands2 →
        (∀ p ∈ cands1, (candidateError C att opts ak p).isSome) →
        C.verifyQuote c ak opts.Nonce = none →
        C.parsePCClientEventLog att.eventLog c.pcrs = .ok state →
        C.parseCanonicalEventLog att.canonicalEventLog c.pcrs = .ok celState →
        (!opts.AllowSHA1 && (c.pcrs.hash == AlgSHA1)) = false →
        VerifyAttestation C att opts =
          .ok (protoMerge (protoMerge emptyMachineState celState) state))
    ∧ (∀ (akCert : Certificate) (certs : List Certificate) (ms0 : MachineState),
      att.akCert ≠ [] →
      C.parseCertificate att.akCert = .ok akCert →
      parseCerts C att.intermediateCerts = .ok certs →
      validateAKCert C akCert
        { opts with IntermediateCerts := opts.IntermediateCerts ++ certs } = .ok (some ms0) →
      ∀ (cands1 cands2 : List Quote) (c : Quote) (state celState : MachineState),
        supportedQuotes att.quotes = cands1 ++ c :: cands2 →
        (∀ p ∈ cands1, (candidateError C att
          { opts with IntermediateCerts := opts.IntermediateCerts ++ certs }
          akCert.publicKey p).isSome) →
        C.verifyQuote c akCert.publicKey opts.Nonce = none →
        C.parsePCClientEventLog att.eventLog c.pcrs = .ok state →
        C.parseCanonicalEventLog att.canonicalEventLog c.pcrs = .ok celState →
        (!opts.AllowSHA1 && (c.pcrs.hash == AlgSHA1)) = false →
        VerifyAttestation C att opts =
          .ok (protoMerge (protoMerge ms0 celState) state)) := by
  constructor
  · intro pa ak hcert hdec hkey hak cands1 cands2 c state celState hsq hfail hq hpc hcel hpol
    rw [verify_rawpath_loop C att opts pa ak hopts hcert hdec hkey hak, hsq]
    exact attestLoop_skip_success C att opts ak emptyMachineState c cands2 state celState
      hq hpc hcel hpol cands1 none hfail
  · intro akCert certs ms0 hcert hparse hints hval cands1 cands2 c state celState
      hsq hfail hq hpc hcel hpol
    rw [verify_certpath_loop C att opts akCert certs (some ms0) hopts hcert hparse hints hval,
      hsq]
    exact attestLoop_skip_success C att
      { opts with IntermediateCerts := opts.IntermediateCerts ++ certs }
      akCert.publicKey ms0 c cands2 state celState hq hpc hcel hpol cands1 none hfail

/-- Witness for C3: a bundle whose SHA-256 quote fails its signature check
falls through to the fully successful SHA-384 quote and returns the merged
machine state. -/
theorem verifyAttestation_first_success_witness :
    VerifyAttestation collabEx attFallback optsAKex =
      .ok { platform := none, pcclientFrag := some 1, celFrag := some 2 } :=
  (verifyAttestation_first_success collabEx attFallback optsAKex rfl).1 0 7
    rfl rfl rfl rfl
    [quoteSHA256bad] [] quoteSHA384ex { pcclientFrag := some 1 } { celFrag := some 2 }
    (by decide) (by decide) rfl rfl rfl rfl

/-- C4: when no candidate fully succeeds, the returned error is the error
recorded for the last candidate attempted in preference order, and when the
ordered candidate list is empty the returned error is the distinct
no-supported-quote error; both hold on the raw-key and on the certificate
identity path. -/
theorem verifyAttestation_last_error (C : Collab) (att : Attestation) (opts : VerifyOpts)
    (hopts : validateOpts opts = none) :
    (∀ (pa : TPMTPublic) (ak : PubKey),
      att.akCert = [] →
      C.decodePublic att.akPub = .ok pa → C.publicKey pa = .ok ak →
      validateAKPub C ak opts = none →
      (∀ (init : List Quote) (qlast : Quote) (e : VError),
        supportedQuotes att.quotes = init ++ [qlast] →
        (∀ p ∈ init, (candidateError C att opts ak p).isSome) →
        candidateError C att opts ak qlast = some e →
        VerifyAttestation C att opts = .err e)
      ∧ (supportedQuotes att.quotes = [] →
        VerifyAttestation C att opts = .err .noSupportedQuote))
    ∧ (∀ (akCert : Certificate) (certs : List Certificate) (msPtr : Option MachineState),
      att.akCert ≠ [] →
      C.parseCertificate att.akCert = .ok akCert →
      parseCerts C att.intermediateCerts = .ok certs →
      validateAKCert C akCert
        { opts with IntermediateCerts := opts.IntermediateCerts ++ certs } = .ok msPtr →
      (∀ (init : List Quote) (qlast : Quote) (e : VError),
        supportedQuotes att.quotes = init ++ [qlast] →
        (∀ p ∈ init, (candidateError C att
          { opts with IntermediateCerts := opts.IntermediateCerts ++ certs }
          akCert.publicKey p).isSome) →
        candidateError C att
          { opts with IntermediateCerts := opts.IntermediateCerts ++ certs }
          akCert.publicKey qlast = some e →
        VerifyAttestation C att opts = .err e)
      ∧ (supportedQuotes att.quotes = [] →
        VerifyAttestation C att opts = .err .noSupportedQuote)) := by
  constructor
  · intro pa ak hcert hdec hkey hak
    constructor
    · intro init qlast e hsq hall hlast
      rw [verify_rawpath_loop C att opts pa ak hopts hcert hdec hkey hak, hsq]
      exact attestLoop_all_fail C att opts ak (some emptyMachineState) init qlast e none
        hall hlast
    · intro hsq
      rw [verify_rawpath_loop C att opts pa ak hopts hcert hdec hkey hak, hsq]
      rfl
  · intro akCert certs msPtr hcert hparse hints hval
    constructor
    · intro init qlast e hsq hall hlast
      rw [verify_certpath_loop C att opts akCert certs msPtr hopts hcert hparse hints hval,
        hsq]
      exact attestLoop_all_fail C att
        { opts with IntermediateCerts := opts.IntermediateCerts ++ certs }
        akCert.publicKey msPtr init qlast e none hall hlast
    · intro hsq
      rw [verify_certpath_loop C att opts akCert certs msPtr hopts hcert hparse hints hval,
        hsq]
      rfl

/-- Witness for C4: a bundle whose only quote fails its signature check
surfaces that quote error as the final error. -/
theorem verifyAttestation_last_error_witness :
    VerifyAttestation collabEx attBadQuote optsAKex =
      .err (.quoteVerifyFailed "bad quote signature") :=
  ((verifyAttestation_last_error collabEx attBadQuote optsAKex rfl).1 0 7
    rfl rfl rfl rfl).1 [] quoteSHA256bad (.quoteVerifyFailed "bad quote signature")
    (by decide) (by decide) rfl

/-- C5: a legacy SHA-1 candidate whose quote verifies and whose both logs
replay is rejected with the specific legacy-algorithm-not-allowed error and
iteration continues when the allow-SHA-1 flag is false, and succeeds when the
flag is true; the policy check runs only after the quote check and both log
replays, so a legacy candidate whose logs fail to replay surfaces the replay
error, not the policy error. -/
theorem attestLoop_sha1_policy (C : Collab) (att : Attestation) (opts : VerifyOpts)
    (ak : PubKey) (ms : Option MachineState) (q : Quote) (rest : List Quote)
    (le : Option VError)
    (hsha : q.pcrs.hash = AlgSHA1)
    (hq : C.verifyQuote q ak opts.Nonce = none) :
    (∀ state celState : MachineState,
      opts.AllowSHA1 = false →
      C.parsePCClientEventLog att.eventLog q.pcrs = .ok state →
      C.parseCanonicalEventLog att.canonicalEventLog q.pcrs = .ok celState →
      attestLoop C att opts ak ms (q :: rest) le =
        attestLoop C att opts ak ms rest (some .sha1NotAllowed))
    ∧ (∀ (ms0 state celState : MachineState),
      opts.AllowSHA1 = true →
      ms = some ms0 →
      C.parsePCClientEventLog att.eventLog q.pcrs = .ok state →
      C.parseCanonicalEventLog att.canonicalEventLog q.pcrs = .ok celState →
      attestLoop C att opts ak ms (q :: rest) le =
        .ok (protoMerge (protoMerge ms0 celState) state))
    ∧ (∀ e : String, C.parsePCClientEventLog att.eventLog q.pcrs = .error e →
      attestLoop C att opts ak ms (q :: rest) le =
        attestLoop C att opts ak ms rest (some (.pcclientLogFailed e)))
    ∧ (∀ (state : MachineState) (e : String),
      C.parsePCClientEventLog att.eventLog q.pcrs = .ok state →
      C.parseCanonicalEventLog att.canonicalEventLog q.pcrs = .error e →
      attestLoop C att opts ak ms (q :: rest) le =
        attestLoop C att opts ak ms rest (some (.canonicalLogFailed e))) := by
  refine ⟨?_, ?_, ?_, ?_⟩
  · intro state celState hallow hpc hcel
    apply attestLoop_cons_fail
    simp [candidateError, hq, hpc, hcel, hallow, hsha]
  · intro ms0 state celState hallow hms hpc hcel
    subst hms
    exact attestLoop_cons_success C att opts ak ms0 q rest le state celState hq hpc hcel
      (by simp [hallow])
  · intro e hpc
    apply attestLoop_cons_fail
    simp [candidateError, hq, hpc]
  · intro state e hpc hcel
    apply attestLoop_cons_fail
    simp [candidateError, hq, hpc, hcel]

/-- Witness for C5: the concrete legacy-SHA-1 candidate is rejected with the
policy error and the loop moves on. -/
theorem attestLoop_sha1_policy_witness :
    attestLoop collabEx attSHA1 optsAKex 7 (some emptyMachineState) [quoteSHA1ex] none =
      attestLoop collabEx attSHA1 optsAKex 7 (some emptyMachineState) [] (some .sha1NotAllowed) :=
  (attestLoop_sha1_policy collabEx attSHA1 optsAKex 7 (some emptyMachineState)
    quoteSHA1ex [] none rfl rfl).1 { pcclientFrag := some 1 } { celFrag := some 2 }
    rfl rfl rfl

/-- C9: every identity-establishment failure (undecodable AK public area,
untrusted raw key, unparseable certificate or intermediates, or a certificate
that fails validation) makes the whole call return that wrapped error
immediately, for every quote list (so no quote candidate is ever examined),
whereas a per-candidate quote, log-replay or policy failure is recorded and
the candidate iteration continues. -/
theorem verifyAttestation_identity_fatal (C : Collab) (att : Attestation) (opts : VerifyOpts)
    (hopts : validateOpts opts = none) :
    (∀ e : String, att.akCert = [] → C.decodePublic att.akPub = .error e →
      ∀ qs : List Quote, VerifyAttestation C { att with quotes := qs } opts =
        .err (.decodeAKPubArea e))
    ∧ (∀ (pa : TPMTPublic) (e : String), att.akCert = [] →
        C.decodePublic att.akPub = .ok pa → C.publicKey pa = .error e →
        ∀ qs : List Quote, VerifyAttestation C { att with quotes := qs } opts =
          .err (.akPublicKey e))
    ∧ (∀ (pa : TPMTPublic) (ak : PubKey), att.akCert = [] →
        C.decodePublic att.akPub = .ok pa → C.publicKey pa = .ok ak →
        validateAKPub C ak opts = some .keyNotTrusted →
        ∀ qs : List Quote, VerifyAttestation C { att with quotes := qs } opts =
          .err (.validateAKPubFailed .keyNotTrusted))
    ∧ (∀ e : String, att.akCert ≠ [] → C.parseCertificate att.akCert = .error e →
        ∀ qs : List Quote, VerifyAttestation C { att with quotes := qs } opts =
          .err (.parseAKCert e))
    ∧ (∀ (akCert : Certificate) (e : String), att.akCert ≠ [] →
        C.parseCertificate att.akCert = .ok akCert →
        parseCerts C att.intermediateCerts = .error e →
        ∀ qs : List Quote, VerifyAttestation C { att with quotes := qs } opts =
          .err (.attestationIntermediates e))
    ∧ (∀ (akCert : Certificate) (certs : List Certificate) (e : VError), att.akCert ≠ [] →
        C.parseCertificate att.akCert = .ok akCert →
        parseCerts C att.intermediateCerts = .ok certs →
        validateAKCert C akCert
          { opts with IntermediateCerts := opts.IntermediateCerts ++ certs } = .error e →
        ∀ qs : List Quote, VerifyAttestation C { att with quotes := qs } opts =
          .err (.validateAKCertFailed e))
    ∧ (∀ (ak : PubKey) (ms : Option MachineState) (q : Quote) (rest : List Quote)
        (le : Option VError) (e : VError),
        candidateError C att opts ak q = some e →
        attestLoop C att opts ak ms (q :: rest) le =
          attestLoop C att opts ak ms rest (some e)) := by
  obtain ⟨ap, qs0, el, ac, ic, cl⟩ := att
  refine ⟨?_, ?_, ?_, ?_, ?_, ?_, ?_⟩
  · intro e hcert hdec qs
    simp only at hcert hdec
    subst hcert
    simp [VerifyAttestation, hopts, hdec]
  · intro pa e hcert hdec hkey qs
    simp only at hcert hdec
    subst hcert
    simp [VerifyAttestation, hopts, hdec, hkey]
  · intro pa ak hcert hdec hkey hak qs
    simp only at hcert hdec
    subst hcert
    simp [VerifyAttestation, hopts, hdec, hkey, hak]
  · intro e hcert hparse qs
    simp only at hcert hparse
    have hlen : (ac.length == 0) = false := by simpa [List.length_eq_zero] using hcert
    simp [VerifyAttestation, hopts, hlen, hparse]
  · intro akCert e hcert hparse hints qs
    simp only at hcert hparse hints
    have hlen : (ac.length == 0) = false := by simpa [List.length_eq_zero] using hcert
    simp [VerifyAttestation, hopts, hlen, hparse, hints]
  · intro akCert certs e hcert hparse hints hval qs
    simp only at hcert hparse hints
    have hlen : (ac.length == 0) = false := by simpa [List.length_eq_zero] using hcert
    simp [VerifyAttestation, hopts, hlen, hparse, hints, hval]
  · intro ak ms q rest le e h
    exact attestLoop_cons_fail C _ opts ak ms q rest le e h

/-- Witness for C9: a bundle whose AK public area is undecodable fails with
the wrapped decode error, with a non-empty quote list present. -/
theorem verifyAttestation_identity_fatal_witness :
    VerifyAttestation collabEx { attBadPub with quotes := [quoteSHA256ex] } optsAKex =
      .err (.decodeAKPubArea "bad public area") :=
  (verifyAttestation_identity_fatal collabEx attBadPub optsAKex rfl).1
    "bad public area" rfl rfl [quoteSHA256ex]

/-- C1: counter to the specified safety property, on the path where the
bundle carries a certificate, the trusted-key set is non-empty and the
trusted-root set is empty, `validateAKCert` returns a nil machine-state
pointer with a nil error, so the first fully successful candidate reaches
`proto.Merge` with a nil destination message and the call panics instead of
returning a machine state. -/
theorem verifyAttestation_nil_seed_crash :
    VerifyAttestation collabEx attCertEx optsAKex = .panicked := by decide

/-- Helper: mapping the hash algorithm over the preference-driven selection
yields exactly the preference list filtered to the represented algorithms. -/
lemma map_hash_filterMap_find (qs : List Quote) :
    ∀ prefs : List Nat,
      ((prefs.filterMap (fun alg => qs.find? (fun q => q.pcrs.hash == alg))).map
        (fun q => q.pcrs.hash))
      = prefs.filter (fun alg => qs.any (fun q => q.pcrs.hash == alg)) := by
  intro prefs
  induction prefs with
  | nil => rfl
  | cons a t ih =>
    cases hf : qs.find? (fun q => q.pcrs.hash == a) with
    | none =>
      have hany : qs.any (fun q => q.pcrs.hash == a) = false := by
        rw [List.any_eq_false]
        intro x hx
        have := List.find?_eq_none.mp hf x hx
        simpa using this
      simp [List.filterMap_cons, hf, List.filter_cons, hany, ih]
    | some q =>
      have hpq := List.find?_some hf
      have heq : q.pcrs.hash = a := by simpa using hpq
      have hmem : q ∈ qs := List.mem_of_find?_eq_some hf
      have hany : qs.any (fun p => p.pcrs.hash == a) = true := by
        rw [List.any_eq_true]
        exact ⟨q, hmem, by simpa using heq⟩
      simp [List.filterMap_cons, hf, List.filter_cons, hany, ih, heq]

/-- Helper: every selected quote's algorithm is in the preference list and the
selected quote is the first input quote carrying that algorithm. -/
lemma mem_supportedQuotes (qs : List Quote) (q : Quote) (h : q ∈ supportedQuotes qs) :
    q.pcrs.hash ∈ pcrHashAlgs ∧
    qs.find? (fun p => p.pcrs.hash == q.pcrs.hash) = some q := by
  obtain ⟨a, ha, hf⟩ := List.mem_filterMap.mp h
  have hpq := List.find?_some hf
  have heq : q.pcrs.hash = a := by simpa using hpq
  rw [heq]
  exact ⟨ha, hf⟩

/-- Helper: `supportedQuotes` restated through its unfolding. -/
lemma map_hash_supportedQuotes (qs : List Quote) :
    (supportedQuotes qs).map (fun q => q.pcrs.hash)
      = pcrHashAlgs.filter (fun a => qs.any (fun q => q.pcrs.hash == a)) :=
  map_hash_filterMap_find qs pcrHashAlgs

/-- Helper: the selection has at most one quote per distinct represented
algorithm. -/
lemma supportedQuotes_length_le (qs : List Quote) :
    (supportedQuotes qs).length ≤ ((qs.map (fun q => q.pcrs.hash)).dedup).length := by
  have h1 : (supportedQuotes qs).length =
      (pcrHashAlgs.filter (fun a => qs.any (fun q => q.pcrs.hash == a))).length := by
    rw [← map_hash_filterMap_find qs pcrHashAlgs]
    exact (List.length_map _ _).symm
  rw [h1]
  have hnodup : (pcrHashAlgs.filter (fun a => qs.any (fun q => q.pcrs.hash == a))).Nodup :=
    List.Nodup.filter _ (by decide)
  have hsub : pcrHashAlgs.filter (fun a => qs.any (fun q => q.pcrs.hash == a)) ⊆
      (qs.map (fun q => q.pcrs.hash)).dedup := by
    intro a ha
    obtain ⟨hmem, hany⟩ := List.mem_filter.mp ha
    rw [List.mem_dedup]
    obtain ⟨q, hq, hpq⟩ := List.any_eq_true.mp hany
    exact List.mem_map.mpr ⟨q, hq, by simpa using hpq⟩
  exact (hnodup.subperm hsub).length_le

/-- C6: the candidate-ordering function selects quotes in the fixed
algorithm-preference order with legacy SHA-1 appended at lowest priority; the
sequence of selected algorithms is the preference list filtered to the
represented algorithms (hence deterministic and, as the quantified `quotes2`
with the same represented set shows, independent of input order); at most one
quote per algorithm is selected and the first input match wins; quotes whose
algorithm is not in the preference list are dropped; and the output length is
at most the number of distinct represented algorithms. -/
theorem supportedQuotes_ordering (quotes1 quotes2 : List Quote)
    (hrep : ∀ a : Nat, quotes1.any (fun q => q.pcrs.hash == a)
      = quotes2.any (fun q => q.pcrs.hash == a)) :
    pcrHashAlgs = SignatureHashAlgs ++ [AlgSHA1]
    ∧ (supportedQuotes quotes1).map (fun q => q.pcrs.hash)
        = pcrHashAlgs.filter (fun a => quotes1.any (fun q => q.pcrs.hash == a))
    ∧ (supportedQuotes quotes2).map (fun q => q.pcrs.hash)
        = (supportedQuotes quotes1).map (fun q => q.pcrs.hash)
    ∧ (∀ q ∈ supportedQuotes quotes1, q.pcrs.hash ∈ pcrHashAlgs
        ∧ quotes1.find? (fun p => p.pcrs.hash == q.pcrs.hash) = some q)
    ∧ (∀ q ∈ quotes1, q.pcrs.hash ∉ pcrHashAlgs → q ∉ supportedQuotes quotes1)
    ∧ (supportedQuotes quotes1).length
        ≤ ((quotes1.map (fun q => q.pcrs.hash)).dedup).length := by
  refine ⟨rfl, map_hash_supportedQuotes quotes1, ?_, ?_, ?_,
    supportedQuotes_length_le quotes1⟩
  · rw [map_hash_supportedQuotes quotes2, map_hash_supportedQuotes quotes1]
    exact List.filter_congr (fun a _ => (hrep a).symm)
  · exact fun q hq => mem_supportedQuotes quotes1 q hq
  · intro q hq hnot hmem
    exact hnot (mem_supportedQuotes quotes1 q hmem).1

/-- Witness for C6: two input orders of the same two quotes select the same
algorithm sequence. -/
theorem supportedQuotes_ordering_witness :
    (supportedQuotes [quoteSHA256ex, quoteSHA384ex]).map (fun q => q.pcrs.hash)
      = (supportedQuotes [quoteSHA384ex, quoteSHA256ex]).map (fun q => q.pcrs.hash) :=
  (supportedQuotes_ordering [quoteSHA384ex, quoteSHA256ex] [quoteSHA256ex, quoteSHA384ex]
    (fun a => by simp [Bool.or_comm])).2.2.1
